import Mathlib

/-!
Verification of the brain-connect repository: a BLE EEG-headset client with
two source variants (`brainconnect.py`, rich 15-byte decode profile, and
`connect.py`, minimal 3-byte decode profile).  The pure data-processing
functions (packet decoding, signal-quality estimation, device matching,
service/characteristic resolution) and the session-handle state transitions
are embedded shallowly: byte payloads are `List Nat`, Python dicts become
structures, Python exceptions become `Except`/`Option`, and the global
`connected_client` becomes explicit state passing.
-/

/-- A BLE scan result: `device.name` may be `None` in Python, the address is
an opaque identifier. -/
structure ScanResult where
  name : Option String
  address : String
deriving DecidableEq

/-- Whether the first character list starts the second one. -/
def leadsWith : List Char → List Char → Bool
  | [], _ => true
  | _ :: _, [] => false
  | a :: as, b :: bs => a == b && leadsWith as bs

/-- Python's substring test `sub in s` on the character lists of the two
strings. -/
def containsSub : List Char → List Char → Bool
  | sub, [] => sub.isEmpty
  | sub, c :: rest => leadsWith sub (c :: rest) || containsSub sub rest

namespace Brainconnect

/-- `POSSIBLE_SERVICE_UUIDS` from brainconnect.py. -/
def POSSIBLE_SERVICE_UUIDS : List String :=
  [ "0000fee9-0000-1000-8000-00805f9b34fb"
  , "0000180f-0000-1000-8000-00805f9b34fb"
  , "0000180a-0000-1000-8000-00805f9b34fb"
  , "0000ffe0-0000-1000-8000-00805f9b34fb"
  , "6e400001-b5a3-f393-e0a9-e50e24dcca9e"
  , "00001800-0000-1000-8000-00805f9b34fb"
  , "00001801-0000-1000-8000-00805f9b34fb" ]

/-- `POSSIBLE_CHARACTERISTIC_UUIDS` from brainconnect.py. -/
def POSSIBLE_CHARACTERISTIC_UUIDS : List String :=
  [ "0000fee1-0000-1000-8000-00805f9b34fb"
  , "00002a19-0000-1000-8000-00805f9b34fb"
  , "00002a29-0000-1000-8000-00805f9b34fb"
  , "6e400003-b5a3-f393-e0a9-e50e24dcca9e"
  , "00002a00-0000-1000-8000-00805f9b34fb"
  , "00002a01-0000-1000-8000-00805f9b34fb" ]

/-- The keyword list of `find_device` in brainconnect.py. -/
def nameKeywords : List String := ["brainlink", "brain", "eeg", "neuro"]

/-- The match test of `find_device`:
`any(prefix in (device.name or "").lower() for prefix in [...])`; `.lower()`
is mapping `Char.toLower` over the characters. -/
def keywordHit (d : ScanResult) : Bool :=
  nameKeywords.any fun k =>
    containsSub k.toList ((d.name.getD "").toList.map Char.toLower)

/-- `find_device` from brainconnect.py, with the scan results supplied as an
argument (in Python they come from `BleakScanner.discover()`): returns the
first device in scan order whose lowercased name contains a keyword. -/
def find_device (devices : List ScanResult) : Option ScanResult :=
  devices.find? keywordHit

/-- The service-selection loop of `connect_to_device` (brainconnect.py lines
57-69): iterate `POSSIBLE_SERVICE_UUIDS` in order and take the first one the
peripheral has; `services.get_service` yielding nothing (or raising) moves on
to the next candidate. -/
def resolveService (available : List String) : Option String :=
  POSSIBLE_SERVICE_UUIDS.find? fun u => available.contains u

/-- The characteristic-selection loop of `connect_to_device` (brainconnect.py
lines 71-84), same first-candidate-present policy over
`POSSIBLE_CHARACTERISTIC_UUIDS`. -/
def resolveCharacteristic (available : List String) : Option String :=
  POSSIBLE_CHARACTERISTIC_UUIDS.find? fun u => available.contains u

/-- `data[0] == 0xAA` from `calculate_signal_quality` (the local booleans of
that function are hoisted to definitions here). -/
def has_valid_sync (data : List Nat) : Bool :=
  data.getD 0 0 == 0xAA

/-- `any(byte > 0 for byte in data[2:])` from `calculate_signal_quality`. -/
def has_non_zero_data (data : List Nat) : Bool :=
  (data.drop 2).any fun b => decide (0 < b)

/-- `len(set(data[2:])) > 2` from `calculate_signal_quality`: more than two
distinct byte values past index 1. -/
def has_variation (data : List Nat) : Bool :=
  decide (2 < (data.drop 2).dedup.length)

/-- `calculate_signal_quality` from brainconnect.py: payloads shorter than 2
bytes score 30; otherwise an ordered five-row table over the three booleans
above, first matching row wins. -/
def calculate_signal_quality (data : List Nat) : Nat :=
  if data.length < 2 then 30
  else if has_valid_sync data && has_non_zero_data data && has_variation data then 95
  else if has_valid_sync data && has_non_zero_data data then 80
  else if has_valid_sync data then 60
  else if has_non_zero_data data then 40
  else 20

/-- Decode failures of `parse_brainlink_data`: the explicit
`{"error": "Incomplete data"}` return, and the `IndexError` Python raises
when a fixed byte offset is read past the end of the payload. -/
inductive ParseError where
  | incompleteData
  | indexError
deriving DecidableEq

/-- The decoded reading dict of `parse_brainlink_data` (rich profile). -/
structure Reading where
  attention : Nat
  meditation : Nat
  delta : ℚ
  theta : ℚ
  alpha : ℚ
  beta : ℚ
  gamma : ℚ
  signal_quality : Nat
  timestamp : ℚ
deriving DecidableEq

deriving instance DecidableEq for Except

/-- Python's `data[i]` on a byte sequence: the byte when `i` is in range,
an `IndexError` otherwise. -/
def byteAt (data : List Nat) (i : Nat) : Except ParseError Nat :=
  match data.get? i with
  | some b => .ok b
  | none => .error .indexError

/-- `parse_brainlink_data` from brainconnect.py.  The guard rejects payloads
shorter than 10 bytes, then bytes 8-14 are read at fixed offsets (so offsets
10-14 can still raise `IndexError` on payloads of length 10-14).  `now` stands
for `asyncio.get_event_loop().time()`. -/
def parse_brainlink_data (data : List Nat) (now : ℚ) : Except ParseError Reading :=
  if data.length < 10 then .error .incompleteData
  else do
    let b8 ← byteAt data 8
    let b9 ← byteAt data 9
    let b10 ← byteAt data 10
    let b11 ← byteAt data 11
    let b12 ← byteAt data 12
    let b13 ← byteAt data 13
    let b14 ← byteAt data 14
    .ok { attention := min (max b8 0) 100
        , meditation := min (max b9 0) 100
        , delta := min ((b10 : ℚ) / 255 * 100) 100
        , theta := min ((b11 : ℚ) / 255 * 100) 100
        , alpha := min ((b12 : ℚ) / 255 * 100) 100
        , beta := min ((b13 : ℚ) / 255 * 100) 100
        , gamma := min ((b14 : ℚ) / 255 * 100) 100
        , signal_quality := calculate_signal_quality data
        , timestamp := now }

/-- The session handle: `connected_client` holds the address the
`BleakClient` was built from, or `none` when no session is active. -/
abbrev SessionHandle := Option String

/-- The external-capability outcomes `connect_to_device` consumes: the scan
results, whether `client.connect()` succeeds, the service UUIDs the
peripheral reports, the characteristic UUIDs of the selected service, and
whether `start_notify` succeeds. -/
structure BleEnv where
  devices : List ScanResult
  connectOk : Bool
  serviceUuids : List String
  charUuids : List String
  notifyOk : Bool
deriving DecidableEq

/-- `connect_to_device` from brainconnect.py as a state transition on the
global `connected_client`: returns the Python return value (`True`/`False`)
and the new value of `connected_client`.  Any raised exception is caught and
turned into `False`; only the fully successful path assigns
`connected_client = client`. -/
def connect_to_device (env : BleEnv) (connected_client : SessionHandle) :
    Bool × SessionHandle :=
  match find_device env.devices with
  | none => (false, connected_client)
  | some device =>
    if env.connectOk then
      match resolveService env.serviceUuids with
      | none => (false, connected_client)
      | some _ =>
        match resolveCharacteristic env.charUuids with
        | none => (false, connected_client)
        | some _ =>
          if env.notifyOk then (true, some device.address)
          else (false, connected_client)
    else (false, connected_client)

/-- `disconnect_from_device` from brainconnect.py as a state transition:
returns the new `connected_client` and the list of handles on which
`client.disconnect()` was awaited during the call. -/
def disconnect_from_device (connected_client : SessionHandle) :
    SessionHandle × List String :=
  match connected_client with
  | none => (none, [])
  | some c => (none, [c])

end Brainconnect

namespace Connect

/-- `POSSIBLE_SERVICE_UUIDS` from connect.py (same seven UUIDs). -/
def POSSIBLE_SERVICE_UUIDS : List String :=
  [ "0000fee9-0000-1000-8000-00805f9b34fb"
  , "0000180f-0000-1000-8000-00805f9b34fb"
  , "0000180a-0000-1000-8000-00805f9b34fb"
  , "0000ffe0-0000-1000-8000-00805f9b34fb"
  , "6e400001-b5a3-f393-e0a9-e50e24dcca9e"
  , "00001800-0000-1000-8000-00805f9b34fb"
  , "00001801-0000-1000-8000-00805f9b34fb" ]

/-- The reading produced by connect.py's minimal-profile parser: the dict
`{"Attention": data[1], "Meditation": data[2]}`, raw bytes, no clamping. -/
structure MinimalReading where
  Attention : Nat
  Meditation : Nat
deriving DecidableEq

/-- `parse_brainlink_data` from connect.py (minimal profile): `None` for
payloads shorter than 3 bytes, otherwise bytes 1 and 2 unmodified. -/
def parse_brainlink_data (data : List Nat) : Option MinimalReading :=
  if data.length < 3 then none
  else some { Attention := data.getD 1 0, Meditation := data.getD 2 0 }

/-- The strict match test of `scan_for_brainlink` in connect.py:
`device.name and "Brain" in device.name` — the name must be present and
truthy (non-empty) and contain the case-sensitive substring `"Brain"`. -/
def brainHit (d : ScanResult) : Bool :=
  match d.name with
  | none => false
  | some n => !n.toList.isEmpty && containsSub "Brain".toList n.toList

/-- `scan_for_brainlink` from connect.py: first scan result passing the
strict name test, `None` when the scan is empty or nothing matches. -/
def scan_for_brainlink (devices : List ScanResult) : Option ScanResult :=
  devices.find? brainHit

/-- The service-selection loop of `connect_to_brainlink` (connect.py lines
76-85): iterate the services in the order the peripheral reports them and
take the first whose UUID belongs to `POSSIBLE_SERVICE_UUIDS`. -/
def found_service (services : List String) : Option String :=
  services.find? fun u => POSSIBLE_SERVICE_UUIDS.contains u

end Connect

/-! ## Spec-side observables -/

/-- The spec's `validSync` boolean: byte 0 equals the sentinel `0xAA`. -/
def ValidSync (data : List Nat) : Prop := data.get? 0 = some 0xAA

/-- The spec's `hasSignal` boolean: some byte at index ≥ 2 is nonzero. -/
def HasSignal (data : List Nat) : Prop := ∃ b ∈ data.drop 2, b ≠ 0

/-- The spec's `hasVariation` boolean: the set of distinct byte values at
index ≥ 2 has more than 2 members. -/
def HasVariation (data : List Nat) : Prop := 2 < (data.drop 2).toFinset.card

instance (data : List Nat) : Decidable (ValidSync data) := by
  unfold ValidSync
  infer_instance

instance (data : List Nat) : Decidable (HasSignal data) := by
  unfold HasSignal
  infer_instance

instance (data : List Nat) : Decidable (HasVariation data) := by
  unfold HasVariation
  infer_instance

/-- The spec's documented ranges for a rich-profile reading: attention and
meditation at most 100 (they are naturals, so nonnegative), every band value
in [0,100]. -/
def ReadingInRange (r : Brainconnect.Reading) : Prop :=
  r.attention ≤ 100 ∧ r.meditation ≤ 100 ∧
  0 ≤ r.delta ∧ r.delta ≤ 100 ∧ 0 ≤ r.theta ∧ r.theta ≤ 100 ∧
  0 ≤ r.alpha ∧ r.alpha ≤ 100 ∧ 0 ≤ r.beta ∧ r.beta ≤ 100 ∧
  0 ≤ r.gamma ∧ r.gamma ≤ 100

/-- The resolution policy exactly as the spec words it: iterate the
candidates in priority order, return the first also present among the
available UUIDs. -/
def specFirstCandidate (candidates available : List String) : Option String :=
  candidates.find? fun u => available.contains u

/-- The DeviceMatcher policy as the spec words it: the name is present and
its lowercasing contains one of the four keywords. -/
def specKeywordMatch (d : ScanResult) : Bool :=
  match d.name with
  | none => false
  | some n => Brainconnect.nameKeywords.any fun k =>
      containsSub k.toList (n.toList.map Char.toLower)

/-- The stricter DeviceMatcher variant as the spec words it: the name is
present and contains the exact substring of the word Brain. -/
def specStrictMatch (d : ScanResult) : Bool :=
  match d.name with
  | none => false
  | some n => containsSub "Brain".toList n.toList

/-! ## Helper lemmas -/

lemma get?_eq_some_getD (l : List Nat) (i : Nat) (h : i < l.length) :
    l.get? i = some (l.getD i 0) := by
  induction l generalizing i with
  | nil => simp at h
  | cons a t ih =>
    cases i with
    | zero => rfl
    | succ n => exact ih n (by simpa using h)

lemma byteAt_some {data : List Nat} {i b : Nat} (h : data.get? i = some b) :
    Brainconnect.byteAt data i = Except.ok b := by
  unfold Brainconnect.byteAt
  rw [h]

lemma byteAt_none {data : List Nat} {i : Nat} (h : data.get? i = none) :
    Brainconnect.byteAt data i =
      Except.error Brainconnect.ParseError.indexError := by
  unfold Brainconnect.byteAt
  rw [h]

lemma byteAt_ok (data : List Nat) (i : Nat) (h : i < data.length) :
    Brainconnect.byteAt data i = Except.ok (data.getD i 0) :=
  byteAt_some (get?_eq_some_getD data i h)

lemma exbind_ok {α β : Type} (a : α)
    (f : α → Except Brainconnect.ParseError β) :
    (Except.ok a >>= f : Except Brainconnect.ParseError β) = f a := rfl

lemma exbind_error {α β : Type} (e : Brainconnect.ParseError)
    (f : α → Except Brainconnect.ParseError β) :
    (Except.error e >>= f : Except Brainconnect.ParseError β) =
      Except.error e := rfl

/-- Complete behaviour of the rich-profile decoder by payload length: the
guarded incomplete-data error below 10 bytes, the out-of-range access on
10 to 14 bytes, and the decoded reading from 15 bytes on. -/
lemma parse_spec (data : List Nat) (now : ℚ) :
    (data.length < 10 →
      Brainconnect.parse_brainlink_data data now =
        Except.error Brainconnect.ParseError.incompleteData) ∧
    (10 ≤ data.length → data.length < 15 →
      Brainconnect.parse_brainlink_data data now =
        Except.error Brainconnect.ParseError.indexError) ∧
    (15 ≤ data.length →
      Brainconnect.parse_brainlink_data data now = Except.ok
        { attention := min (max (data.getD 8 0) 0) 100
        , meditation := min (max (data.getD 9 0) 0) 100
        , delta := min ((data.getD 10 0 : ℚ) / 255 * 100) 100
        , theta := min ((data.getD 11 0 : ℚ) / 255 * 100) 100
        , alpha := min ((data.getD 12 0 : ℚ) / 255 * 100) 100
        , beta := min ((data.getD 13 0 : ℚ) / 255 * 100) 100
        , gamma := min ((data.getD 14 0 : ℚ) / 255 * 100) 100
        , signal_quality := Brainconnect.calculate_signal_quality data
        , timestamp := now }) := by
  refine ⟨?_, ?_, ?_⟩
  · intro h
    unfold Brainconnect.parse_brainlink_data
    rw [if_pos h]
  · intro h10 h15
    unfold Brainconnect.parse_brainlink_data
    rw [if_neg (by omega)]
    simp only [byteAt_ok data 8 (by omega), byteAt_ok data 9 (by omega),
      exbind_ok]
    rcases e10 : data.get? 10 with _ | b10
    · simp only [byteAt_none e10, exbind_error]
    · simp only [byteAt_some e10, exbind_ok]
      rcases e11 : data.get? 11 with _ | b11
      · simp only [byteAt_none e11, exbind_error]
      · simp only [byteAt_some e11, exbind_ok]
        rcases e12 : data.get? 12 with _ | b12
        · simp only [byteAt_none e12, exbind_error]
        · simp only [byteAt_some e12, exbind_ok]
          rcases e13 : data.get? 13 with _ | b13
          · simp only [byteAt_none e13, exbind_error]
          · simp only [byteAt_some e13, exbind_ok]
            have e14 : data.get? 14 = none := by
              rw [List.get?_eq_none]
              omega
            simp only [byteAt_none e14, exbind_error]
  · intro h
    unfold Brainconnect.parse_brainlink_data
    rw [if_neg (by omega)]
    simp only [byteAt_ok data 8 (by omega), byteAt_ok data 9 (by omega),
      byteAt_ok data 10 (by omega), byteAt_ok data 11 (by omega),
      byteAt_ok data 12 (by omega), byteAt_ok data 13 (by omega),
      byteAt_ok data 14 (by omega), exbind_ok]

/-- Any reading the rich-profile decoder actually returns has all its fields
inside the documented ranges. -/
lemma parse_ok_in_range (data : List Nat) (now : ℚ)
    (r : Brainconnect.Reading)
    (hr : Brainconnect.parse_brainlink_data data now = Except.ok r) :
    ReadingInRange r := by
  by_cases h15 : 15 ≤ data.length
  · rw [(parse_spec data now).2.2 h15] at hr
    cases hr
    refine ⟨min_le_right _ _, min_le_right _ _, ?_, min_le_right _ _,
      ?_, min_le_right _ _, ?_, min_le_right _ _, ?_, min_le_right _ _,
      ?_, min_le_right _ _⟩ <;>
      exact le_min (by positivity) (by norm_num)
  · by_cases h10 : data.length < 10
    · rw [(parse_spec data now).1 h10] at hr
      cases hr
    · rw [(parse_spec data now).2.1 (by omega) (by omega)] at hr
      cases hr

/-! ## Claim theorems -/

/-- C1, as stated, is false: the rich-profile decoder does not succeed on
every payload of length ≥ 10.  The ten-byte all-zero payload passes the
length guard but the band read at offset 10 is out of range, so decoding
ends in an index error, not a `Reading`. -/
theorem c1_counterexample :
    10 ≤ ([0, 0, 0, 0, 0, 0, 0, 0, 0, 0] : List Nat).length ∧
      Brainconnect.parse_brainlink_data [0, 0, 0, 0, 0, 0, 0, 0, 0, 0] 0 =
        Except.error Brainconnect.ParseError.indexError := by
  constructor
  · decide
  · rfl

/-- C1 amended: for every payload of length ≥ 15 the rich-profile decode
succeeds with attention and meditation clamped into [0,100] by
min-after-max, each band value min((byte/255)*100, 100), and every decoded
field lies in [0,100] for any byte input.  (Payloads of length 10 to 14 pass
the length guard but fail with an out-of-range access.) -/
theorem c1_rich_decode (data : List Nat) (now : ℚ)
    (h : 15 ≤ data.length) :
    Brainconnect.parse_brainlink_data data now = Except.ok
      { attention := min (max (data.getD 8 0) 0) 100
      , meditation := min (max (data.getD 9 0) 0) 100
      , delta := min ((data.getD 10 0 : ℚ) / 255 * 100) 100
      , theta := min ((data.getD 11 0 : ℚ) / 255 * 100) 100
      , alpha := min ((data.getD 12 0 : ℚ) / 255 * 100) 100
      , beta := min ((data.getD 13 0 : ℚ) / 255 * 100) 100
      , gamma := min ((data.getD 14 0 : ℚ) / 255 * 100) 100
      , signal_quality := Brainconnect.calculate_signal_quality data
      , timestamp := now } ∧
    ∀ r, Brainconnect.parse_brainlink_data data now = Except.ok r →
      ReadingInRange r :=
  ⟨(parse_spec data now).2.2 h, fun r hr => parse_ok_in_range data now r hr⟩

/-- Witness for C1 amended at a concrete fifteen-byte payload. -/
theorem c1_rich_decode_witness :
    15 ≤ (List.replicate 15 0).length ∧
      Brainconnect.parse_brainlink_data (List.replicate 15 0) 0 = Except.ok
        { attention := min (max ((List.replicate 15 0).getD 8 0) 0) 100
        , meditation := min (max ((List.replicate 15 0).getD 9 0) 0) 100
        , delta := min (((List.replicate 15 0).getD 10 0 : ℚ) / 255 * 100) 100
        , theta := min (((List.replicate 15 0).getD 11 0 : ℚ) / 255 * 100) 100
        , alpha := min (((List.replicate 15 0).getD 12 0 : ℚ) / 255 * 100) 100
        , beta := min (((List.replicate 15 0).getD 13 0 : ℚ) / 255 * 100) 100
        , gamma := min (((List.replicate 15 0).getD 14 0 : ℚ) / 255 * 100) 100
        , signal_quality :=
            Brainconnect.calculate_signal_quality (List.replicate 15 0)
        , timestamp := 0 } :=
  ⟨by decide, (c1_rich_decode (List.replicate 15 0) 0 (by decide)).1⟩

/-- C2: every payload of length 9 or fewer makes the rich-profile decoder
return the incomplete-data error and nothing else: no partial reading is
produced. -/
theorem c2_short_payload_incomplete (data : List Nat) (now : ℚ)
    (h : data.length ≤ 9) :
    Brainconnect.parse_brainlink_data data now =
      Except.error Brainconnect.ParseError.incompleteData :=
  (parse_spec data now).1 (by omega)

/-- Witness for C2 at a concrete three-byte payload. -/
theorem c2_short_payload_incomplete_witness :
    ([0xAA, 1, 2] : List Nat).length ≤ 9 ∧
      Brainconnect.parse_brainlink_data [0xAA, 1, 2] 0 =
        Except.error Brainconnect.ParseError.incompleteData :=
  ⟨by decide, c2_short_payload_incomplete [0xAA, 1, 2] 0 (by decide)⟩

/-- C9: the minimal decode profile rejects every payload shorter than 3
bytes as invalid (no reading), and decodes every payload of length ≥ 3 to
attention = byte 1 and meditation = byte 2, with no band or quality
fields. -/
theorem c9_minimal_profile (data : List Nat) :
    (data.length < 3 → Connect.parse_brainlink_data data = none) ∧
    (3 ≤ data.length →
      Connect.parse_brainlink_data data =
        some { Attention := data.getD 1 0, Meditation := data.getD 2 0 }) := by
  constructor
  · intro h
    unfold Connect.parse_brainlink_data
    rw [if_pos h]
  · intro h
    unfold Connect.parse_brainlink_data
    rw [if_neg (by omega)]

/-- Witness for C9: a two-byte payload is rejected, a three-byte payload
decodes to its bytes 1 and 2. -/
theorem c9_minimal_profile_witness :
    Connect.parse_brainlink_data [2, 77] = none ∧
      Connect.parse_brainlink_data [2, 77, 55] =
        some { Attention := 77, Meditation := 55 } :=
  ⟨(c9_minimal_profile [2, 77]).1 (by decide),
   (c9_minimal_profile [2, 77, 55]).2 (by decide)⟩

/-- C10: disconnect is idempotent and total on the session state: with no
active handle it performs no disconnect call and leaves the state unchanged,
after any call the handle is cleared, and a second call in a row adds
nothing to the first. -/
theorem c10_disconnect_idempotent (s : Brainconnect.SessionHandle) :
    Brainconnect.disconnect_from_device none = (none, []) ∧
    (Brainconnect.disconnect_from_device s).1 = none ∧
    Brainconnect.disconnect_from_device
        (Brainconnect.disconnect_from_device s).1 = (none, []) := by
  refine ⟨rfl, ?_, ?_⟩ <;> cases s <;> rfl

/-- C7, as stated, is false: under the minimal decode profile a reading can
leave the [0,100] range, because bytes 1 and 2 are returned unclamped.  The
byte payload [2, 200, 150] decodes to attention 200 > 100. -/
theorem c7_counterexample :
    Connect.parse_brainlink_data [2, 200, 150] =
        some { Attention := 200, Meditation := 150 } ∧
      ¬ (200 : Nat) ≤ 100 := by
  constructor
  · rfl
  · decide

/-- C7 amended: every reading the rich-profile decoder produces has
attention, meditation and all five band values in [0,100]; readings of the
minimal profile carry the raw bytes unclamped, so for byte input they are
only bounded by 255 and may exceed 100. -/
theorem c7_reading_ranges (data : List Nat) (now : ℚ) :
    (∀ r, Brainconnect.parse_brainlink_data data now = Except.ok r →
      ReadingInRange r) ∧
    (∀ r, Connect.parse_brainlink_data data = some r →
      (∀ b ∈ data, b ≤ 255) →
      r.Attention ≤ 255 ∧ r.Meditation ≤ 255) := by
  constructor
  · intro r hr
    exact parse_ok_in_range data now r hr
  · intro r hr hb
    unfold Connect.parse_brainlink_data at hr
    by_cases h3 : data.length < 3
    · rw [if_pos h3] at hr
      cases hr
    · rw [if_neg h3] at hr
      cases hr
      constructor
      · exact hb _ (List.get?_mem (get?_eq_some_getD data 1 (by omega)))
      · exact hb _ (List.get?_mem (get?_eq_some_getD data 2 (by omega)))

/-- Witness for C7 amended: a rich reading from a concrete all-zero payload
is in range, and a concrete minimal reading respects the byte bound. -/
theorem c7_reading_ranges_witness :
    ReadingInRange
      { attention := min (max ((List.replicate 15 0).getD 8 0) 0) 100
      , meditation := min (max ((List.replicate 15 0).getD 9 0) 0) 100
      , delta := min (((List.replicate 15 0).getD 10 0 : ℚ) / 255 * 100) 100
      , theta := min (((List.replicate 15 0).getD 11 0 : ℚ) / 255 * 100) 100
      , alpha := min (((List.replicate 15 0).getD 12 0 : ℚ) / 255 * 100) 100
      , beta := min (((List.replicate 15 0).getD 13 0 : ℚ) / 255 * 100) 100
      , gamma := min (((List.replicate 15 0).getD 14 0 : ℚ) / 255 * 100) 100
      , signal_quality :=
          Brainconnect.calculate_signal_quality (List.replicate 15 0)
      , timestamp := 0 } ∧ (5 : Nat) ≤ 255 ∧ (6 : Nat) ≤ 255 :=
  ⟨(c7_reading_ranges (List.replicate 15 0) 0).1 _
     ((parse_spec (List.replicate 15 0) 0).2.2 (by decide)),
   (c7_reading_ranges [2, 5, 6] 0).2 { Attention := 5, Meditation := 6 }
     (by rfl) (by decide)⟩

/-- C8: the fifteen-byte example payload decodes under the rich profile to
attention 77, meditation 55, delta (128/255)·100, theta (64/255)·100,
alpha 100, beta (10/255)·100, gamma 0 and signal quality 95. -/
theorem c8_example_payload :
    Brainconnect.parse_brainlink_data
        [0xAA, 0x00, 0, 0, 0, 0, 0, 0, 77, 55, 128, 64, 255, 10, 0] 0 =
      Except.ok
        { attention := 77, meditation := 55
        , delta := (128 : ℚ) / 255 * 100
        , theta := (64 : ℚ) / 255 * 100
        , alpha := 100
        , beta := (10 : ℚ) / 255 * 100
        , gamma := 0
        , signal_quality := 95
        , timestamp := 0 } := by
  rw [(parse_spec [0xAA, 0x00, 0, 0, 0, 0, 0, 0, 77, 55, 128, 64, 255, 10, 0]
        0).2.2 (by decide)]
  simp only [Except.ok.injEq, Brainconnect.Reading.mk.injEq]
  norm_num [List.getD]
  decide

/-- C6, as stated, is false: starting a new session while one is active does
not fail fast.  With a session handle already stored, a fully successful
`connect_to_device` run still returns success and silently overwrites the
stored handle with the new client. -/
theorem c6_counterexample :
    (some "AA:OLD" : Brainconnect.SessionHandle) ≠ none ∧
      Brainconnect.connect_to_device
          { devices := [{ name := some "BrainLink Pro", address := "AA:BB" }]
          , connectOk := true
          , serviceUuids := ["0000fee9-0000-1000-8000-00805f9b34fb"]
          , charUuids := ["0000fee1-0000-1000-8000-00805f9b34fb"]
          , notifyOk := true }
          (some "AA:OLD") = (true, some "AA:BB") := by
  constructor
  · exact Option.some_ne_none _
  · decide

/-- C6 amended: `connect_to_device` never consults the stored session
handle: its success flag is independent of the prior handle, a successful
run replaces the handle with the new client (silent replacement, the prior
client is never disconnected), and a failed run leaves the prior handle
unchanged. -/
theorem c6_no_fail_fast (env : Brainconnect.BleEnv)
    (s : Brainconnect.SessionHandle) :
    (Brainconnect.connect_to_device env s).1 =
        (Brainconnect.connect_to_device env none).1 ∧
    ((Brainconnect.connect_to_device env s).1 = true →
      (Brainconnect.connect_to_device env s).2 =
        (Brainconnect.connect_to_device env none).2) ∧
    ((Brainconnect.connect_to_device env s).1 = false →
      (Brainconnect.connect_to_device env s).2 = s) := by
  rcases hd : Brainconnect.find_device env.devices with _ | d <;>
    rcases hc : env.connectOk with _ | _ <;>
      rcases hs : Brainconnect.resolveService env.serviceUuids with _ | svc <;>
        rcases hch : Brainconnect.resolveCharacteristic env.charUuids
            with _ | ch <;>
          rcases hn : env.notifyOk with _ | _ <;>
            simp [Brainconnect.connect_to_device, hd, hc, hs, hch, hn]

/-- Witness for C6 amended at a concrete environment and prior handle. -/
theorem c6_no_fail_fast_witness :
    (Brainconnect.connect_to_device
        { devices := [{ name := some "BrainLink Pro", address := "AA:BB" }]
        , connectOk := true
        , serviceUuids := ["0000fee9-0000-1000-8000-00805f9b34fb"]
        , charUuids := ["0000fee1-0000-1000-8000-00805f9b34fb"]
        , notifyOk := true }
        (some "AA:OLD")).2 =
      (Brainconnect.connect_to_device
          { devices := [{ name := some "BrainLink Pro", address := "AA:BB" }]
          , connectOk := true
          , serviceUuids := ["0000fee9-0000-1000-8000-00805f9b34fb"]
          , charUuids := ["0000fee1-0000-1000-8000-00805f9b34fb"]
          , notifyOk := true }
          none).2 :=
  (c6_no_fail_fast _ (some "AA:OLD")).2.1 (by decide)

lemma has_non_zero_data_iff (data : List Nat) :
    Brainconnect.has_non_zero_data data = true ↔ HasSignal data := by
  simp [Brainconnect.has_non_zero_data, HasSignal, List.any_eq_true,
    Nat.pos_iff_ne_zero]

lemma has_variation_iff (data : List Nat) :
    Brainconnect.has_variation data = true ↔ HasVariation data := by
  simp [Brainconnect.has_variation, HasVariation, List.card_toFinset]

lemma has_valid_sync_iff (data : List Nat) (h : 2 ≤ data.length) :
    Brainconnect.has_valid_sync data = true ↔ ValidSync data := by
  rw [Brainconnect.has_valid_sync, ValidSync, beq_iff_eq,
    get?_eq_some_getD data 0 (by omega)]
  simp

/-- C3: the signal-quality estimator returns 30 on payloads shorter than 2
bytes, and otherwise follows the ordered table over the spec's booleans
validSync, hasSignal and hasVariation, first matching row winning — in
particular validSync and hasSignal without hasVariation give exactly 80. -/
theorem c3_signal_quality_table (data : List Nat) :
    (data.length < 2 → Brainconnect.calculate_signal_quality data = 30) ∧
    (2 ≤ data.length →
      ((ValidSync data ∧ HasSignal data ∧ HasVariation data) →
        Brainconnect.calculate_signal_quality data = 95) ∧
      ((ValidSync data ∧ HasSignal data ∧ ¬ HasVariation data) →
        Brainconnect.calculate_signal_quality data = 80) ∧
      ((ValidSync data ∧ ¬ HasSignal data) →
        Brainconnect.calculate_signal_quality data = 60) ∧
      ((¬ ValidSync data ∧ HasSignal data) →
        Brainconnect.calculate_signal_quality data = 40) ∧
      ((¬ ValidSync data ∧ ¬ HasSignal data) →
        Brainconnect.calculate_signal_quality data = 20)) := by
  constructor
  · intro h
    unfold Brainconnect.calculate_signal_quality
    rw [if_pos h]
  · intro h2
    have hS := has_valid_sync_iff data h2
    have hN := has_non_zero_data_iff data
    have hV := has_variation_iff data
    have hq : ¬ data.length < 2 := by omega
    cases hv : Brainconnect.has_valid_sync data <;>
      cases hn : Brainconnect.has_non_zero_data data <;>
        cases hvr : Brainconnect.has_variation data <;>
          simp_all [Brainconnect.calculate_signal_quality]

/-- Witness for C3: a five-byte payload with sync, one nonzero byte and only
two distinct byte values past index 1 scores exactly 80. -/
theorem c3_signal_quality_table_witness :
    2 ≤ ([0xAA, 0, 5, 0, 0] : List Nat).length ∧
      Brainconnect.calculate_signal_quality [0xAA, 0, 5, 0, 0] = 80 :=
  ⟨by decide,
   ((c3_signal_quality_table [0xAA, 0, 5, 0, 0]).2 (by decide)).2.1
     ⟨by decide, by decide, by decide⟩⟩

lemma keywordHit_eq_spec : Brainconnect.keywordHit = specKeywordMatch := by
  funext d
  rcases d with ⟨name, a⟩
  cases name with
  | none => rfl
  | some n => rfl

lemma brainHit_eq_spec : Connect.brainHit = specStrictMatch := by
  funext d
  rcases d with ⟨name, a⟩
  cases name with
  | none => rfl
  | some n =>
    show (!n.toList.isEmpty && containsSub "Brain".toList n.toList) =
      containsSub "Brain".toList n.toList
    cases hn : n.toList with
    | nil => rfl
    | cons c cs => rfl

/-- C5: both device matchers return the first scan result, in scan order,
passing their name test — the keyword matcher (name present, lowercasing
contains one of brainlink/brain/eeg/neuro) and the stricter variant (name
present and containing the exact substring of Brain).  Both return nothing
on an empty scan; a scan holding a device named BrainLink Pro returns it,
and EEG-Headset matches the keyword eeg case-insensitively. -/
theorem c5_device_matcher (l : List ScanResult) :
    Brainconnect.find_device l = l.find? specKeywordMatch ∧
    Connect.scan_for_brainlink l = l.find? specStrictMatch ∧
    Brainconnect.find_device [] = none ∧
    Connect.scan_for_brainlink [] = none ∧
    Brainconnect.find_device
        [ { name := some "RandomBT", address := "A1" }
        , { name := some "BrainLink Pro", address := "A2" } ] =
      some { name := some "BrainLink Pro", address := "A2" } ∧
    specKeywordMatch { name := some "EEG-Headset", address := "A3" } = true ∧
    Connect.scan_for_brainlink
        [ { name := some "BrainLink Pro", address := "A2" } ] =
      some { name := some "BrainLink Pro", address := "A2" } := by
  refine ⟨?_, ?_, rfl, rfl, by decide, by decide, by decide⟩
  · rw [Brainconnect.find_device, keywordHit_eq_spec]
  · rw [Connect.scan_for_brainlink, brainHit_eq_spec]

lemma find?_eq_some_split {α : Type} (p : α → Bool) :
    ∀ (l : List α) (x : α), l.find? p = some x →
      p x = true ∧ ∃ l₁ l₂, l = l₁ ++ x :: l₂ ∧ ∀ y ∈ l₁, p y = false := by
  intro l
  induction l with
  | nil => intro x hx; cases hx
  | cons a t ih =>
    intro x hx
    by_cases ha : p a = true
    · rw [List.find?_cons_of_pos _ ha] at hx
      cases hx
      exact ⟨ha, [], t, rfl, by intro y hy; cases hy⟩
    · rw [List.find?_cons_of_neg _ (by simpa using ha)] at hx
      obtain ⟨hpx, l₁, l₂, heq, hall⟩ := ih x hx
      refine ⟨hpx, a :: l₁, l₂, by rw [heq, List.cons_append], ?_⟩
      intro y hy
      rcases List.mem_cons.1 hy with rfl | hy'
      · simpa using ha
      · exact hall y hy'

/-- C4, as stated, is false of the connect.py variant: there the chosen
service is the first in the order the peripheral reports, not the first in
candidate-list order.  With the peripheral reporting ffe0 before fee9,
connect.py picks ffe0 while candidate order puts fee9 first. -/
theorem c4_counterexample :
    Connect.found_service
        [ "0000ffe0-0000-1000-8000-00805f9b34fb"
        , "0000fee9-0000-1000-8000-00805f9b34fb" ] =
      some "0000ffe0-0000-1000-8000-00805f9b34fb" ∧
    specFirstCandidate Connect.POSSIBLE_SERVICE_UUIDS
        [ "0000ffe0-0000-1000-8000-00805f9b34fb"
        , "0000fee9-0000-1000-8000-00805f9b34fb" ] =
      some "0000fee9-0000-1000-8000-00805f9b34fb" ∧
    ("0000ffe0-0000-1000-8000-00805f9b34fb" : String) ≠
      "0000fee9-0000-1000-8000-00805f9b34fb" := by
  refine ⟨by decide, by decide, by decide⟩

/-- C4 amended: in brainconnect.py, service and characteristic resolution
return the first UUID in candidate-list order present among the available
UUIDs, return nothing when no candidate is present, and never fail on an
empty available set; in connect.py, however, the service returned is the
first in the order the peripheral reports its services whose UUID belongs to
the candidate list, so precedence there is decided by report order. -/
theorem c4_resolution_order (available : List String) :
    (Brainconnect.resolveService available = none ↔
      ∀ u ∈ Brainconnect.POSSIBLE_SERVICE_UUIDS,
        available.contains u = false) ∧
    (∀ u, Brainconnect.resolveService available = some u →
      available.contains u = true ∧
      ∃ l₁ l₂, Brainconnect.POSSIBLE_SERVICE_UUIDS = l₁ ++ u :: l₂ ∧
        ∀ v ∈ l₁, available.contains v = false) ∧
    Brainconnect.resolveService [] = none ∧
    (Brainconnect.resolveCharacteristic available = none ↔
      ∀ u ∈ Brainconnect.POSSIBLE_CHARACTERISTIC_UUIDS,
        available.contains u = false) ∧
    (∀ u, Brainconnect.resolveCharacteristic available = some u →
      available.contains u = true ∧
      ∃ l₁ l₂, Brainconnect.POSSIBLE_CHARACTERISTIC_UUIDS = l₁ ++ u :: l₂ ∧
        ∀ v ∈ l₁, available.contains v = false) ∧
    Brainconnect.resolveCharacteristic [] = none ∧
    (∀ u, Connect.found_service available = some u →
      Connect.POSSIBLE_SERVICE_UUIDS.contains u = true ∧
      ∃ l₁ l₂, available = l₁ ++ u :: l₂ ∧
        ∀ v ∈ l₁, Connect.POSSIBLE_SERVICE_UUIDS.contains v = false) := by
  refine ⟨?_, ?_, by decide, ?_, ?_, by decide, ?_⟩
  · rw [Brainconnect.resolveService, List.find?_eq_none]
    simp
  · intro u hu
    obtain ⟨hpu, l₁, l₂, heq, hall⟩ := find?_eq_some_split _ _ u hu
    exact ⟨hpu, l₁, l₂, heq, hall⟩
  · rw [Brainconnect.resolveCharacteristic, List.find?_eq_none]
    simp
  · intro u hu
    obtain ⟨hpu, l₁, l₂, heq, hall⟩ := find?_eq_some_split _ _ u hu
    exact ⟨hpu, l₁, l₂, heq, hall⟩
  · intro u hu
    obtain ⟨hpu, l₁, l₂, heq, hall⟩ := find?_eq_some_split _ _ u hu
    exact ⟨hpu, l₁, l₂, heq, hall⟩

/-- Witness for C4 amended: with only fee9 available, brainconnect's
resolver picks it, it is the very first candidate, and connect.py's loop
recognises it too. -/
theorem c4_resolution_order_witness :
    (([ "0000fee9-0000-1000-8000-00805f9b34fb" ] : List String).contains
        "0000fee9-0000-1000-8000-00805f9b34fb" = true ∧
      ∃ l₁ l₂, Brainconnect.POSSIBLE_SERVICE_UUIDS =
          l₁ ++ "0000fee9-0000-1000-8000-00805f9b34fb" :: l₂ ∧
        ∀ v ∈ l₁,
          ([ "0000fee9-0000-1000-8000-00805f9b34fb" ] : List String).contains
            v = false) :=
  (c4_resolution_order [ "0000fee9-0000-1000-8000-00805f9b34fb" ]).2.1
    "0000fee9-0000-1000-8000-00805f9b34fb" (by decide)
